import Mathlib

/-!
Verification of the Metashape orthophoto pipeline orchestrator
(`src/main.py`): the settings-to-parameter mapping tables, the image
enumeration of `load_images`, the pipeline run of
`MetashapeProcessor.run` with its progress/status/finished event stream
and engine-call trace, pre-run validation (`validate_inputs`), and the
telemetry column-format mini-language described by the specification.

Conventions of the embedding:
* Python dict settings become a structure of `Option`-valued fields;
  `dict.get(k, default)` becomes `Option.getD`.
* Qt signal emissions (`progress_updated`, `status_updated`,
  `finished_successfully`) become elements of an ordered `List Event`.
* Calls into the opaque `Metashape` engine become elements of an
  ordered `List EngineCall`; each fallible engine operation's outcome
  is an `Option String` field of `EngineEnv` (`none` = success,
  `some e` = the operation raises an exception with message `e`).
* `print(...)` output (stdout, not the Qt status stream) becomes a
  `List String` of console lines.
* The filesystem is a `List String` of file names directly under the
  images directory; `pathlib.Path(folder).glob("*" ++ ext)` becomes a
  suffix filter, and `str(path)` becomes `folder ++ "/" ++ name`
  (POSIX join of a directory and a plain file name).
-/

set_option autoImplicit false

namespace MetashapeMenu

/-! ## Settings model and enum mapping tables (src/main.py lines 232-252) -/

/-- Telemetry import sub-settings (`telemetry_settings` dict). -/
structure TelemetrySettings where
  delimiter : String
  columns : String
  crs : String
deriving Repr, DecidableEq

/-- The settings bundle handed to `MetashapeProcessor`; each field models
one key of the Python settings dict, `none` meaning the key is absent. -/
structure Settings where
  accuracy : Option String
  dense_cloud_quality : Option String
  generic_preselection : Option Bool
  reference_preselection : Option Bool
  adaptive_fitting : Option Bool
  telemetry_settings : Option TelemetrySettings
deriving Repr, DecidableEq

/-- The `accuracy_map` dict of `get_accuracy` (lines 234-238). -/
def accuracy_map : String → Option Nat
  | "HighAccuracy" => some 0
  | "MediumAccuracy" => some 1
  | "LowAccuracy" => some 2
  | _ => none

/-- Embeds `MetashapeProcessor.get_accuracy` (lines 232-239):
`accuracy_map.get(self.settings.get('accuracy', 'HighAccuracy'), 0)`. -/
def get_accuracy (accuracy : Option String) : Nat :=
  (accuracy_map (accuracy.getD ("HighAccuracy"))).getD 0

/-- The `quality_map` dict of `get_quality` (lines 243-247). -/
def quality_map : String → Option Nat
  | "HighQuality" => some 1
  | "MediumQuality" => some 2
  | "LowQuality" => some 4
  | _ => none

/-- Embeds `MetashapeProcessor.get_quality` (lines 241-248):
`quality_map.get(self.settings.get('dense_cloud_quality', 'MediumQuality'), 2)`. -/
def get_quality (dense_cloud_quality : Option String) : Nat :=
  (quality_map (dense_cloud_quality.getD ("MediumQuality"))).getD 2

/-- Embeds `MetashapeProcessor.get_downscale` (lines 250-252): the identity. -/
def get_downscale (level : Nat) : Nat := level

/-! ## Image enumeration: `MetashapeProcessor.load_images` (lines 157-174) -/

/-- Python's `str.upper()`, character by character over the string's
character list (kernel-executable, unlike `String.toUpper`). -/
def pyUpper (s : String) : String := String.mk (s.data.map Char.toUpper)

/-- Python's `str.lower()`, character by character. -/
def pyLower (s : String) : String := String.mk (s.data.map Char.toLower)

/-- Python's `str.endswith(pat)`, as a suffix test on character lists. -/
def pyEndsWith (s pat : String) : Bool := pat.data.isSuffixOf s.data

/-- The `supported_formats` list (line 160). -/
def supported_formats : List String := [".jpg", ".jpeg", ".tif", ".tiff", ".png"]

/-- Embeds `Path(folder).glob("*" ++ pat)` over a directory listing, with
`str(path)` rendered as `folder ++ "/" ++ name`: the files whose name
ends with `pat`. -/
def globExt (folder : String) (listing : List String) (pat : String) : List String :=
  (listing.filter (fun f => pyEndsWith f pat)).map (fun f => folder ++ "/" ++ f)

/-- The `image_list` accumulation loop (lines 162-164): for each
extension, glob the lowercase pattern then the uppercase one. -/
def imageList (folder : String) (listing : List String) : List String :=
  supported_formats.foldl
    (fun acc ext => acc ++ globExt folder listing ext ++ globExt folder listing (pyUpper ext)) []

/-- The `photo_list` de-duplication loop (lines 166-169): append each
path not already present, keeping first occurrences in order. -/
def pydedup (l : List String) : List String :=
  l.foldl (fun acc p => if p ∈ acc then acc else acc ++ [p]) []

/-- The de-duplicated photo list `load_images` builds from a directory. -/
def photoList (folder : String) (listing : List String) : List String :=
  pydedup (imageList folder listing)

/-- The exception message of line 172. -/
def msgNoImages (folder : String) : String :=
  "Изображения не найдены в папке: " ++ folder

/-- Embeds `MetashapeProcessor.load_images` (lines 157-174): returns the photo
list passed to `chunk.addPhotos`, or the exception it raises when the
list is empty. -/
def load_images (folder : String) (listing : List String) : Except String (List String) :=
  let photo_list := photoList folder listing
  if photo_list = [] then Except.error (msgNoImages folder) else Except.ok photo_list

/-- A file name the code's enumeration recognizes: its name ends with a
supported extension written either all-lowercase or all-uppercase. -/
def recognizedByCode (f : String) : Bool :=
  supported_formats.any (fun ext => pyEndsWith f ext || pyEndsWith f (pyUpper ext))

/-! ## TelemetryFormat parser (spec §4.1)

Modelled from the spec: `src/main.py` contains no column-format parser —
`load_telemetry` (lines 186-190) passes the `columns` string verbatim to
the engine's `chunk.importReference`, so the parser the spec describes
lives inside the opaque engine. The definitions below follow the spec's
words: alphabet `n x y z |`, each character assigns a role to the column
at its ordinal position, `|` skips a column, duplicate role letters, an
empty string or a character outside the alphabet are format errors, and
the column count is the string length. -/

/-- A column role of the `columnFormat` mini-language. -/
inductive ColRole
  | n
  | x
  | y
  | z
deriving Repr, DecidableEq, BEq

/-- The result of parsing a `columnFormat` string: the ordered
`(columnIndex, role)` pairs of the non-skip characters, and the total
column count. -/
structure ColumnRoleMapping where
  roles : List (Nat × ColRole)
  columnCount : Nat
deriving Repr, DecidableEq

/-- Outcome of the column-format parser. -/
inductive ParseResult
  | ok (m : ColumnRoleMapping)
  | formatError
deriving Repr, DecidableEq

/-- Modelled from the spec: the role a character assigns, `none` for a
character outside the alphabet `{n, x, y, z, |}`. -/
def charToRole : Char → Option ColRole
  | 'n' => some ColRole.n
  | 'x' => some ColRole.x
  | 'y' => some ColRole.y
  | 'z' => some ColRole.z
  | _ => none

/-- Modelled from the spec: left-to-right scan of the format characters;
`i` is the current column index, `acc` the roles seen so far (reversed). -/
def parseColumnsAux : List Char → Nat → List (Nat × ColRole) → ParseResult
  | [], i, acc => ParseResult.ok ⟨acc.reverse, i⟩
  | c :: rest, i, acc =>
    if c = '|' then parseColumnsAux rest (i + 1) acc
    else
      match charToRole c with
      | none => ParseResult.formatError
      | some r =>
        if acc.any (fun pr => pr.2 == r) then ParseResult.formatError
        else parseColumnsAux rest (i + 1) ((i, r) :: acc)

/-- Modelled from the spec: `parse(columnFormat) -> ColumnRoleMapping |
FormatError` (spec §4.1); the parser is not present in `src/main.py`. -/
def parseColumns (s : String) : ParseResult :=
  if s.isEmpty then ParseResult.formatError else parseColumnsAux s.toList 0 []

/-- C6: the columnFormat parser maps "nxyz" to roles
[(0,n),(1,x),(2,y),(3,z)] with column count 4, "n|xyz" to
[(0,n),(2,x),(3,y),(4,z)] with column count 5, and rejects "nxxy"
(duplicate role letter) and the empty string with a format error. -/
theorem C6_columnFormat_parser_examples :
    parseColumns ("nxyz") =
      ParseResult.ok ⟨[(0, ColRole.n), (1, ColRole.x), (2, ColRole.y), (3, ColRole.z)], 4⟩ ∧
    parseColumns ("n|xyz") =
      ParseResult.ok ⟨[(0, ColRole.n), (2, ColRole.x), (3, ColRole.y), (4, ColRole.z)], 5⟩ ∧
    parseColumns ("nxxy") = ParseResult.formatError ∧
    parseColumns ("") = ParseResult.formatError := by
  refine ⟨by decide, by decide, by decide, by decide⟩

/-! ## The pipeline run: `MetashapeProcessor.run` (lines 101-155)

The three Qt signals become an ordered event list; engine calls become
an ordered call trace; `print` output becomes a console-line list. -/

/-- One emission of a `MetashapeProcessor` signal: `progress_updated`,
`status_updated`, or `finished_successfully`. -/
inductive Event
  | progress (n : Nat)
  | status (s : String)
  | finished (ok : Bool) (msg : String)
deriving Repr, DecidableEq

/-- One call into the opaque `Metashape` engine, in program order. -/
inductive EngineCall
  | addChunk
  | addPhotos (paths : List String)
  | importReference (path columns delimiter crs : String)
  | enableAllReferences
  | matchPhotos (downscale : Nat) (generic_preselection reference_preselection : Bool)
  | alignCameras (adaptive_fitting : Bool)
  | buildDepthMaps (downscale : Nat)
  | buildPointCloud
  | buildOrthomosaic
  | setCrs (crs : String)
  | exportRaster (path : String)
deriving Repr, DecidableEq

/-- Outcomes of the fallible engine operations for one run: `none` means
the call returns normally, `some e` means it raises an exception whose
message is `e`. `docHasChunks` models `self.doc.chunks` being non-empty
and `listing` the contents of the images directory. -/
structure EngineEnv where
  docHasChunks : Bool
  listing : List String
  addPhotosErr : Option String
  importReferenceErr : Option String
  matchPhotosErr : Option String
  alignCamerasErr : Option String
  buildDepthMapsErr : Option String
  buildPointCloudErr : Option String
  buildOrthomosaicErr : Option String
  exportRasterErr : Option String
deriving Repr, DecidableEq

/-- The constructor arguments of `MetashapeProcessor` (lines 93-99):
`telemetryFileExists` models `os.path.exists(self.telemetry_file)`. -/
structure RunConfig where
  images_folder : String
  telemetry_file : Option String
  telemetryFileExists : Bool
  output_path : String
  settings : Settings
deriving Repr, DecidableEq

/-- Everything one run emits: the signal events in order, the engine
call trace in order, and the `print` console lines in order. -/
structure RunResult where
  events : List Event
  calls : List EngineCall
  console : List String
deriving Repr, DecidableEq

/-- Status messages of `run` (lines 106-149). -/
def msgCreateChunk : String := "Создание нового chunk..."

def msgLoadImages : String := "Загрузка изображений..."

def msgLoadTelemetry : String := "Загрузка телеметрии..."

def msgMatch : String := "Поиск особых точек..."

def msgAlign : String := "Выравнивание фотографий..."

def msgDense : String := "Построение плотного облака точек..."

def msgOrtho : String := "Построение Ортофотоплана..."

def msgExport : String := "Экспорт ортофотоплана..."

def msgDone : String := "Обработка завершена успешно!"

/-- The exception handler's message (line 153). -/
def msgRunError (e : String) : String := "Ошибка обработки: " ++ e

/-- The console warning printed by `load_telemetry` (line 195). -/
def msgWarnTelemetry (e : String) : String :=
  "Предупреждение: Не удалось загрузить телеметрию: " ++ e

/-- The events the `except` block of `run` emits (lines 152-155). -/
def failEvents (e : String) : List Event :=
  [Event.status (msgRunError e), Event.finished false (msgRunError e)]

/-- The fallback telemetry settings of `load_telemetry` (lines 180-184). -/
def defaultTelemetrySettings : TelemetrySettings :=
  { delimiter := (","), columns := ("nxyz"), crs := ("EPSG::4326") }

/-- Embeds `MetashapeProcessor.load_telemetry` (lines 176-195): attempts the
engine's reference import; on any exception prints a warning to the
console and returns normally. Result: console lines and engine calls. -/
def load_telemetry (telemetry_file : String) (settings : Settings)
    (importErr : Option String) : List String × List EngineCall :=
  let ts := settings.telemetry_settings.getD defaultTelemetrySettings
  match importErr with
  | none =>
    ([], [EngineCall.importReference telemetry_file ts.columns ts.delimiter ts.crs,
          EngineCall.enableAllReferences])
  | some e =>
    ([msgWarnTelemetry e],
     [EngineCall.importReference telemetry_file ts.columns ts.delimiter ts.crs])

/-- The output path of `export_orthophoto` (line 222):
`os.path.join(self.output_path, "orthophoto.gpkg")`, rendered as a POSIX
join of a directory and a plain file name. -/
def exportPath (output_path : String) : String := output_path ++ "/" ++ "orthophoto.gpkg"

/-- Embeds `MetashapeProcessor.run` (lines 101-155): the full pipeline, stopping
with the `except` handler's events at the first exception. -/
def runPipeline (cfg : RunConfig) (env : EngineEnv) : RunResult :=
  let preEv : List Event := if env.docHasChunks then [] else [Event.status msgCreateChunk]
  let preCalls : List EngineCall := if env.docHasChunks then [] else [EngineCall.addChunk]
  let ev1 := preEv ++ [Event.progress 5, Event.status msgLoadImages]
  match load_images cfg.images_folder env.listing with
  | Except.error e => ⟨ev1 ++ failEvents e, preCalls, []⟩
  | Except.ok photos =>
    let calls1 := preCalls ++ [EngineCall.addPhotos photos]
    match env.addPhotosErr with
    | some e => ⟨ev1 ++ failEvents e, calls1, []⟩
    | none =>
      let ev2 := ev1 ++ [Event.progress 15]
      let (ev3, calls2, console1) :=
        match cfg.telemetry_file with
        | some tf =>
          if (!(tf == "")) && cfg.telemetryFileExists then
            let lt := load_telemetry tf cfg.settings env.importReferenceErr
            (ev2 ++ [Event.status msgLoadTelemetry, Event.progress 20], calls1 ++ lt.2, lt.1)
          else (ev2, calls1, ([] : List String))
        | none => (ev2, calls1, ([] : List String))
      let ev4 := ev3 ++ [Event.status msgMatch]
      let calls3 := calls2 ++
        [EngineCall.matchPhotos (get_downscale (get_accuracy cfg.settings.accuracy))
          (cfg.settings.generic_preselection.getD true)
          (cfg.settings.reference_preselection.getD true)]
      match env.matchPhotosErr with
      | some e => ⟨ev4 ++ failEvents e, calls3, console1⟩
      | none =>
        let ev5 := ev4 ++ [Event.progress 35, Event.status msgAlign]
        let calls4 := calls3 ++ [EngineCall.alignCameras (cfg.settings.adaptive_fitting.getD true)]
        match env.alignCamerasErr with
        | some e => ⟨ev5 ++ failEvents e, calls4, console1⟩
        | none =>
          let ev6 := ev5 ++ [Event.progress 50, Event.status msgDense]
          let calls5 := calls4 ++
            [EngineCall.buildDepthMaps (get_downscale (get_quality cfg.settings.dense_cloud_quality))]
          match env.buildDepthMapsErr with
          | some e => ⟨ev6 ++ failEvents e, calls5, console1⟩
          | none =>
            let calls6 := calls5 ++ [EngineCall.buildPointCloud]
            match env.buildPointCloudErr with
            | some e => ⟨ev6 ++ failEvents e, calls6, console1⟩
            | none =>
              let ev7 := ev6 ++ [Event.progress 70, Event.status msgOrtho]
              let calls7 := calls6 ++ [EngineCall.buildOrthomosaic]
              match env.buildOrthomosaicErr with
              | some e => ⟨ev7 ++ failEvents e, calls7, console1⟩
              | none =>
                let ev8 := ev7 ++ [Event.progress 85, Event.status msgExport]
                let outFile := exportPath cfg.output_path
                let calls8 := calls7 ++
                  [EngineCall.setCrs ("EPSG::3857"), EngineCall.exportRaster outFile]
                match env.exportRasterErr with
                | some e => ⟨ev8 ++ failEvents e, calls8, console1⟩
                | none =>
                  ⟨ev8 ++ [Event.progress 100, Event.status msgDone, Event.finished true outFile],
                   calls8, console1⟩

/-! ## Event-stream predicates -/

/-- The numeric payload of a progress event. -/
def progressOf : Event → Option Nat
  | Event.progress n => some n
  | _ => none

/-- The progress values of an event stream, in emission order. -/
def progressValues (evs : List Event) : List Nat := evs.filterMap progressOf

/-- The status messages of an event stream, in emission order. -/
def statusMessages (evs : List Event) : List String :=
  evs.filterMap (fun e =>
    match e with
    | Event.status s => some s
    | _ => none)

/-- A list of naturals is strictly increasing left to right. -/
def strictIncr : List Nat → Bool
  | [] => true
  | [_] => true
  | a :: b :: rest => decide (a < b) && strictIncr (b :: rest)

/-- The run's last event is a successful `finished_successfully` emission. -/
def runSucceeded : List Event → Bool
  | [] => false
  | [e] =>
    match e with
    | Event.finished ok _ => ok
    | _ => false
  | _ :: rest => runSucceeded rest

/-- Some progress event occurs after a failed `finished_successfully`
emission somewhere in the stream. -/
def progressAfterFailed : List Event → Bool
  | [] => false
  | e :: rest =>
    match e with
    | Event.finished false _ => rest.any (fun ev => (progressOf ev).isSome) || progressAfterFailed rest
    | _ => progressAfterFailed rest

/-- C1: progress values of any run are strictly increasing, 100 is
emitted only when the run ends in success, and no progress event follows
a failure event. -/
theorem C1_progress_invariants (cfg : RunConfig) (env : EngineEnv) :
    strictIncr (progressValues (runPipeline cfg env).events) = true ∧
    ((100 : Nat) ∈ progressValues (runPipeline cfg env).events →
      runSucceeded (runPipeline cfg env).events = true) ∧
    progressAfterFailed (runPipeline cfg env).events = false := by
  unfold runPipeline
  repeat' split
  all_goals
    simp_all [progressValues, progressOf, strictIncr, runSucceeded, progressAfterFailed,
      failEvents]

/-! ## Claims about the enum mapping tables -/

/-- C2 counterexample: `get_quality` maps the Medium dense quality to
downscale 2, not the claimed 4, so the claimed table 1,2,4,8,16 with
Medium mapping to 4 does not match the code. -/
theorem C2_counterexample_medium_quality :
    get_quality (some ("MediumQuality")) = 2 ∧ (2 : Nat) ≠ 4 := by
  exact ⟨rfl, by decide⟩

/-- C2 (amended): the code's accuracy table is HighAccuracy → 0,
MediumAccuracy → 1, LowAccuracy → 2, and its dense-quality table is
HighQuality → 1, MediumQuality → 2, LowQuality → 4 (powers of two
1, 2, 4); in particular MediumQuality maps to downscale 2. -/
theorem C2_amended_mapping_tables :
    get_accuracy (some ("HighAccuracy")) = 0 ∧
    get_accuracy (some ("MediumAccuracy")) = 1 ∧
    get_accuracy (some ("LowAccuracy")) = 2 ∧
    get_quality (some ("HighQuality")) = 1 ∧
    get_quality (some ("MediumQuality")) = 2 ∧
    get_quality (some ("LowQuality")) = 4 := by
  refine ⟨rfl, rfl, rfl, rfl, rfl, rfl⟩

/-- C7 counterexample: an unrecognized accuracy value falls back to 0,
the HighAccuracy value, not to the Medium-level value 1. -/
theorem C7_counterexample_accuracy_fallback :
    get_accuracy (some ("UltraAccuracy")) = 0 ∧
    get_accuracy (some ("MediumAccuracy")) = 1 ∧ (0 : Nat) ≠ 1 := by
  refine ⟨rfl, rfl, by decide⟩

/-- C7 (amended): unknown enum values never fail — `get_accuracy` falls
back to 0 (the HighAccuracy value) and `get_quality` falls back to 2
(the MediumQuality value). -/
theorem C7_amended_fallback (s q : String)
    (hs : accuracy_map s = none) (hq : quality_map q = none) :
    get_accuracy (some s) = 0 ∧ get_quality (some q) = 2 := by
  constructor
  · simp [get_accuracy, hs]
  · simp [get_quality, hq]

/-- Witness for `C7_amended_fallback` at the unknown values
"UltraAccuracy" / "UltraHighQuality". -/
theorem C7_amended_fallback_witness :
    accuracy_map ("UltraAccuracy") = none ∧
    quality_map ("UltraHighQuality") = none ∧
    (get_accuracy (some ("UltraAccuracy")) = 0 ∧
      get_quality (some ("UltraHighQuality")) = 2) :=
  ⟨rfl, rfl, C7_amended_fallback ("UltraAccuracy") ("UltraHighQuality") rfl rfl⟩

/-! ## Lemmas about the image enumeration -/

/-- Folding "append two glob results" equals flattening the mapped list. -/
theorem foldl_append_glob {α β : Type} (g₁ g₂ : α → List β) (l : List α) (init : List β) :
    l.foldl (fun acc x => acc ++ g₁ x ++ g₂ x) init =
      init ++ (l.map (fun x => g₁ x ++ g₂ x)).flatten := by
  induction l generalizing init with
  | nil => simp
  | cons a l ih =>
    rw [List.foldl_cons, ih]
    simp [List.append_assoc]

/-- Membership in `imageList`: exactly the listed files whose name the
code's extension test recognizes, rendered as joined paths. -/
theorem mem_imageList {folder : String} {listing : List String} {p : String} :
    p ∈ imageList folder listing ↔
      ∃ f, f ∈ listing ∧ p = folder ++ "/" ++ f ∧ recognizedByCode f = true := by
  rw [imageList, foldl_append_glob, List.nil_append]
  constructor
  · intro hp
    rcases List.mem_flatten.mp hp with ⟨l, hl, hpl⟩
    rcases List.mem_map.mp hl with ⟨ext, hext, rfl⟩
    rcases List.mem_append.mp hpl with h | h <;>
    · rcases List.mem_map.mp h with ⟨f, hf, rfl⟩
      rcases List.mem_filter.mp hf with ⟨hfl, hends⟩
      refine ⟨f, hfl, rfl, ?_⟩
      rw [recognizedByCode, List.any_eq_true]
      exact ⟨ext, hext, by simp [hends]⟩
  · rintro ⟨f, hfl, rfl, hrec⟩
    rw [recognizedByCode, List.any_eq_true] at hrec
    rcases hrec with ⟨ext, hext, hor⟩
    apply List.mem_flatten.mpr
    refine ⟨globExt folder listing ext ++ globExt folder listing (pyUpper ext),
      List.mem_map.mpr ⟨ext, hext, rfl⟩, List.mem_append.mpr ?_⟩
    rcases Bool.or_eq_true_iff.mp hor with h | h
    · exact Or.inl (List.mem_map.mpr ⟨f, List.mem_filter.mpr ⟨hfl, h⟩, rfl⟩)
    · exact Or.inr (List.mem_map.mpr ⟨f, List.mem_filter.mpr ⟨hfl, h⟩, rfl⟩)

/-- Membership is preserved by the de-duplication loop. -/
theorem mem_pydedup_foldl (l : List String) :
    ∀ (acc : List String) (p : String),
      (p ∈ l.foldl (fun acc q => if q ∈ acc then acc else acc ++ [q]) acc ↔ p ∈ acc ∨ p ∈ l) := by
  induction l with
  | nil => simp
  | cons a l ih =>
    intro acc p
    by_cases ha : a ∈ acc
    · simp only [List.foldl_cons, if_pos ha, ih, List.mem_cons]
      constructor
      · rintro (h | h)
        · exact Or.inl h
        · exact Or.inr (Or.inr h)
      · rintro (h | rfl | h)
        · exact Or.inl h
        · exact Or.inl ha
        · exact Or.inr h
    · simp only [List.foldl_cons, if_neg ha, ih, List.mem_append, List.mem_singleton,
        List.mem_cons]
      tauto

/-- Membership in `pydedup`. -/
theorem mem_pydedup {l : List String} {p : String} : p ∈ pydedup l ↔ p ∈ l := by
  rw [pydedup, mem_pydedup_foldl]
  simp

/-- The de-duplication loop returns a duplicate-free list. -/
theorem nodup_pydedup_foldl (l : List String) :
    ∀ acc : List String, acc.Nodup →
      (l.foldl (fun acc q => if q ∈ acc then acc else acc ++ [q]) acc).Nodup := by
  induction l with
  | nil => intro acc h; simpa using h
  | cons a l ih =>
    intro acc h
    rw [List.foldl_cons]
    by_cases ha : a ∈ acc
    · rw [if_pos ha]
      exact ih acc h
    · rw [if_neg ha]
      exact ih (acc ++ [a]) (by simp [List.nodup_append, h, ha])

/-- The function `pydedup` returns a duplicate-free list. -/
theorem nodup_pydedup {l : List String} : (pydedup l).Nodup :=
  nodup_pydedup_foldl l [] List.nodup_nil

/-- Membership in the final photo list. -/
theorem mem_photoList {folder : String} {listing : List String} {p : String} :
    p ∈ photoList folder listing ↔
      ∃ f, f ∈ listing ∧ p = folder ++ "/" ++ f ∧ recognizedByCode f = true := by
  rw [photoList, mem_pydedup, mem_imageList]

/-- When no listed file is recognized, the photo list is empty. -/
theorem photoList_eq_nil {folder : String} {listing : List String}
    (h : ∀ f ∈ listing, recognizedByCode f = false) : photoList folder listing = [] := by
  rw [List.eq_nil_iff_forall_not_mem]
  intro p hp
  rcases mem_photoList.mp hp with ⟨f, hf, _, hrec⟩
  rw [h f hf] at hrec
  exact Bool.false_ne_true hrec

/-- When no listed file is recognized, `load_images` raises the
no-images exception. -/
theorem load_images_error {folder : String} {listing : List String}
    (h : ∀ f ∈ listing, recognizedByCode f = false) :
    load_images folder listing = Except.error (msgNoImages folder) := by
  rw [load_images]
  simp [photoList_eq_nil h]

/-- When the photo list is non-empty, `load_images` returns it. -/
theorem load_images_ok {folder : String} {listing : List String}
    (h : photoList folder listing ≠ []) :
    load_images folder listing = Except.ok (photoList folder listing) := by
  rw [load_images]
  simp [h]

/-! ## Claims about image enumeration and the no-images failure -/

/-- C9 counterexample: a file with the mixed-case extension ".Jpg" —
recognized case-insensitively — is not enumerated: `load_images` raises
the no-images exception on a directory containing only "a.Jpg". -/
theorem C9_counterexample_mixed_case :
    load_images ("imgs") ["a.Jpg"] = Except.error (msgNoImages ("imgs")) ∧
    pyEndsWith (pyLower ("a.Jpg")) (".jpg") = true ∧
    recognizedByCode ("a.Jpg") = false := by
  refine ⟨by rfl, by decide, by decide⟩

/-- C9 (amended): `load_images` enumerates exactly the files directly
under the image directory whose name ends with a supported extension
written all-lowercase or all-uppercase (mixed case is not matched),
de-duplicates them by path string, and hands the resulting list to the
engine's `addPhotos`. -/
theorem C9_amended_load_images (folder p : String) (listing : List String)
    (cfg : RunConfig) (env : EngineEnv)
    (hcfg : cfg.images_folder = folder) (henv : env.listing = listing)
    (h : photoList folder listing ≠ []) :
    (photoList folder listing).Nodup ∧
    (p ∈ photoList folder listing ↔
      ∃ f, f ∈ listing ∧ p = folder ++ "/" ++ f ∧ recognizedByCode f = true) ∧
    load_images folder listing = Except.ok (photoList folder listing) ∧
    EngineCall.addPhotos (photoList folder listing) ∈ (runPipeline cfg env).calls := by
  refine ⟨nodup_pydedup, mem_photoList, load_images_ok h, ?_⟩
  subst hcfg henv
  unfold runPipeline
  rw [load_images_ok h]
  repeat' split
  all_goals simp_all

/-- Witness for `C9_amended_load_images` on a directory containing
"a.jpg", "b.txt" and a duplicate-producing "c.JPG". -/
theorem C9_amended_load_images_witness :
    photoList ("imgs") ["a.jpg", "b.txt", "c.JPG"] ≠ [] ∧
    ((photoList ("imgs") ["a.jpg", "b.txt", "c.JPG"]).Nodup ∧
      (("imgs/a.jpg") ∈ photoList ("imgs") ["a.jpg", "b.txt", "c.JPG"] ↔
        ∃ f, f ∈ ["a.jpg", "b.txt", "c.JPG"] ∧
          ("imgs/a.jpg") = ("imgs") ++ "/" ++ f ∧ recognizedByCode f = true) ∧
      load_images ("imgs") ["a.jpg", "b.txt", "c.JPG"] =
        Except.ok (photoList ("imgs") ["a.jpg", "b.txt", "c.JPG"]) ∧
      EngineCall.addPhotos (photoList ("imgs") ["a.jpg", "b.txt", "c.JPG"]) ∈
        (runPipeline
          { images_folder := ("imgs"), telemetry_file := none, telemetryFileExists := false,
            output_path := ("out"),
            settings := ⟨none, none, none, none, none, none⟩ }
          { docHasChunks := true, listing := ["a.jpg", "b.txt", "c.JPG"],
            addPhotosErr := none, importReferenceErr := none, matchPhotosErr := none,
            alignCamerasErr := none, buildDepthMapsErr := none, buildPointCloudErr := none,
            buildOrthomosaicErr := none, exportRasterErr := none }).calls) :=
  ⟨by decide,
    C9_amended_load_images ("imgs") ("imgs/a.jpg") ["a.jpg", "b.txt", "c.JPG"] _ _ rfl rfl
      (by decide)⟩

/-- An engine call that performs feature matching. -/
def isMatchCall : EngineCall → Bool
  | EngineCall.matchPhotos _ _ _ => true
  | _ => false

/-- An engine call that performs camera alignment. -/
def isAlignCall : EngineCall → Bool
  | EngineCall.alignCameras _ => true
  | _ => false

/-- C4: when the image directory holds no file the enumeration
recognizes, the run ends in a failed terminal event carrying the
no-images message, and the engine receives no matching and no alignment
call. -/
theorem C4_no_images_run_fails (cfg : RunConfig) (env : EngineEnv)
    (h : ∀ f ∈ env.listing, recognizedByCode f = false) :
    (runPipeline cfg env).events.getLast? =
      some (Event.finished false (msgRunError (msgNoImages cfg.images_folder))) ∧
    runSucceeded (runPipeline cfg env).events = false ∧
    (runPipeline cfg env).calls.any (fun c => isMatchCall c || isAlignCall c) = false := by
  unfold runPipeline
  rw [load_images_error h]
  repeat' split
  all_goals
    simp_all [failEvents, runSucceeded, isMatchCall, isAlignCall, List.getLast?_append_cons]

/-- Witness for `C4_no_images_run_fails` on a directory containing only
"notes.txt". -/
theorem C4_no_images_run_fails_witness :
    (∀ f ∈ ["notes.txt"], recognizedByCode f = false) ∧
    ((runPipeline
        { images_folder := ("imgs"), telemetry_file := none, telemetryFileExists := false,
          output_path := ("out"), settings := ⟨none, none, none, none, none, none⟩ }
        { docHasChunks := false, listing := ["notes.txt"],
          addPhotosErr := none, importReferenceErr := none, matchPhotosErr := none,
          alignCamerasErr := none, buildDepthMapsErr := none, buildPointCloudErr := none,
          buildOrthomosaicErr := none, exportRasterErr := none }).events.getLast? =
      some (Event.finished false (msgRunError (msgNoImages ("imgs")))) ∧
      runSucceeded (runPipeline
        { images_folder := ("imgs"), telemetry_file := none, telemetryFileExists := false,
          output_path := ("out"), settings := ⟨none, none, none, none, none, none⟩ }
        { docHasChunks := false, listing := ["notes.txt"],
          addPhotosErr := none, importReferenceErr := none, matchPhotosErr := none,
          alignCamerasErr := none, buildDepthMapsErr := none, buildPointCloudErr := none,
          buildOrthomosaicErr := none, exportRasterErr := none }).events = false ∧
      (runPipeline
        { images_folder := ("imgs"), telemetry_file := none, telemetryFileExists := false,
          output_path := ("out"), settings := ⟨none, none, none, none, none, none⟩ }
        { docHasChunks := false, listing := ["notes.txt"],
          addPhotosErr := none, importReferenceErr := none, matchPhotosErr := none,
          alignCamerasErr := none, buildDepthMapsErr := none, buildPointCloudErr := none,
          buildOrthomosaicErr := none, exportRasterErr := none }).calls.any
        (fun c => isMatchCall c || isAlignCall c) = false) :=
  ⟨by decide, C4_no_images_run_fails _ _ (by decide)⟩

/-! ## Claims about the export path, telemetry failure, and telemetry skip -/

/-- A settings dict with every key absent. -/
def noSettings : Settings := ⟨none, none, none, none, none, none⟩

/-- An engine whose every operation succeeds, over a given listing. -/
def allOkEnv (listing : List String) : EngineEnv :=
  { docHasChunks := true, listing := listing, addPhotosErr := none,
    importReferenceErr := none, matchPhotosErr := none, alignCamerasErr := none,
    buildDepthMapsErr := none, buildPointCloudErr := none, buildOrthomosaicErr := none,
    exportRasterErr := none }

/-- C5 counterexample: the success payload of a run is
`{outputDir}/orthophoto.gpkg` — a fixed file name, not one derived from
a project name. -/
theorem C5_counterexample_fixed_name :
    (runPipeline
        { images_folder := ("imgs"), telemetry_file := none, telemetryFileExists := false,
          output_path := ("out"), settings := noSettings }
        (allOkEnv ["a.jpg"])).events.getLast? =
      some (Event.finished true ("out/orthophoto.gpkg")) ∧
    ("out/orthophoto.gpkg") ≠ ("out") ++ "/" ++ ("myproject") ++ (".gpkg") := by
  refine ⟨by rfl, by decide⟩

/-- C5 (amended): every successful run's terminal event carries the
path `{outputDir}/orthophoto.gpkg` (fixed file name); the path depends
only on the run's output directory, so identical inputs give identical
output paths. -/
theorem C5_amended_output_path (cfg : RunConfig) (env : EngineEnv)
    (h : runSucceeded (runPipeline cfg env).events = true) :
    (runPipeline cfg env).events.getLast? =
      some (Event.finished true (exportPath cfg.output_path)) ∧
    exportPath cfg.output_path = cfg.output_path ++ "/" ++ ("orthophoto.gpkg") := by
  refine ⟨?_, rfl⟩
  revert h
  unfold runPipeline
  repeat' split
  all_goals simp [runSucceeded, failEvents, List.getLast?_append_cons]

/-- Witness for `C5_amended_output_path` on a one-image run. -/
theorem C5_amended_output_path_witness :
    runSucceeded (runPipeline
        { images_folder := ("imgs"), telemetry_file := none, telemetryFileExists := false,
          output_path := ("out"), settings := noSettings }
        (allOkEnv ["a.jpg"])).events = true ∧
    ((runPipeline
        { images_folder := ("imgs"), telemetry_file := none, telemetryFileExists := false,
          output_path := ("out"), settings := noSettings }
        (allOkEnv ["a.jpg"])).events.getLast? =
      some (Event.finished true (exportPath ("out"))) ∧
      exportPath ("out") = ("out") ++ "/" ++ ("orthophoto.gpkg")) :=
  ⟨by rfl, C5_amended_output_path _ _ (by rfl)⟩

/-- A warning-shaped message: it opens with the code's own warning
marker "Предупреждение" (the shape of the message `load_telemetry`
prints on line 195). -/
def warningShaped (s : String) : Bool := ("Предупреждение").data.isPrefixOf s.data

/-- A telemetry-failing but otherwise healthy run over one image, with
an existing non-empty telemetry file: the engine rejects the
reference-data load with the given message. -/
def telemetryFailEnv : EngineEnv :=
  { allOkEnv ["a.jpg"] with importReferenceErr := some ("bad column mapping") }

/-- The run configuration for the telemetry-failing run. -/
def telemetryFailCfg : RunConfig :=
  { images_folder := ("imgs"), telemetry_file := some ("t.csv"), telemetryFileExists := true,
    output_path := ("out"), settings := noSettings }

/-- C3 counterexample: when the engine rejects the telemetry import the
run still succeeds, but the warning-shaped message goes to the console
(`print`), not into the status stream: no emitted status message is
warning-shaped. -/
theorem C3_counterexample_warning_not_in_status_stream :
    runSucceeded (runPipeline telemetryFailCfg telemetryFailEnv).events = true ∧
    (runPipeline telemetryFailCfg telemetryFailEnv).console =
      [msgWarnTelemetry ("bad column mapping")] ∧
    (statusMessages (runPipeline telemetryFailCfg telemetryFailEnv).events).all
      (fun s => !(warningShaped s)) = true ∧
    warningShaped (msgWarnTelemetry ("bad column mapping")) = true := by
  refine ⟨by rfl, by rfl, by decide, by decide⟩

/-- C3 (amended): a failing telemetry import is caught: the run
proceeds through all remaining stages and succeeds; the warning-shaped
message referencing telemetry is printed to the console, not emitted
into the status stream, whose messages (the informational telemetry
message included, before the matching one) are never warning-shaped. -/
theorem C3_amended_telemetry_failure_nonfatal (cfg : RunConfig) (env : EngineEnv)
    (tf err : String)
    (htf : cfg.telemetry_file = some tf) (hne : (tf == ("")) = false)
    (hex : cfg.telemetryFileExists = true) (himp : env.importReferenceErr = some err)
    (hdoc : env.docHasChunks = true)
    (himgs : photoList cfg.images_folder env.listing ≠ [])
    (haddp : env.addPhotosErr = none) (hmatch : env.matchPhotosErr = none)
    (halign : env.alignCamerasErr = none) (hdm : env.buildDepthMapsErr = none)
    (hpc : env.buildPointCloudErr = none) (hbo : env.buildOrthomosaicErr = none)
    (hexp : env.exportRasterErr = none) :
    (runPipeline cfg env).events =
      [Event.progress 5, Event.status msgLoadImages, Event.progress 15,
       Event.status msgLoadTelemetry, Event.progress 20,
       Event.status msgMatch, Event.progress 35,
       Event.status msgAlign, Event.progress 50,
       Event.status msgDense, Event.progress 70,
       Event.status msgOrtho, Event.progress 85,
       Event.status msgExport, Event.progress 100,
       Event.status msgDone, Event.finished true (exportPath cfg.output_path)] ∧
    (runPipeline cfg env).console = [msgWarnTelemetry err] ∧
    runSucceeded (runPipeline cfg env).events = true ∧
    (statusMessages (runPipeline cfg env).events).all (fun s => !(warningShaped s)) = true := by
  have hev : (runPipeline cfg env).events =
      [Event.progress 5, Event.status msgLoadImages, Event.progress 15,
       Event.status msgLoadTelemetry, Event.progress 20,
       Event.status msgMatch, Event.progress 35,
       Event.status msgAlign, Event.progress 50,
       Event.status msgDense, Event.progress 70,
       Event.status msgOrtho, Event.progress 85,
       Event.status msgExport, Event.progress 100,
       Event.status msgDone, Event.finished true (exportPath cfg.output_path)] ∧
      (runPipeline cfg env).console = [msgWarnTelemetry err] := by
    unfold runPipeline
    rw [load_images_ok himgs, htf, haddp, himp, hmatch, halign, hdm, hpc, hbo, hexp, hdoc]
    simp [load_telemetry, hne, hex]
  refine ⟨hev.1, hev.2, ?_, ?_⟩
  · rw [hev.1]
    rfl
  · rw [hev.1]
    simp only [statusMessages, List.filterMap]
    decide

/-- Witness for `C3_amended_telemetry_failure_nonfatal` at the concrete
telemetry-failing run. -/
theorem C3_amended_telemetry_failure_witness :
    telemetryFailCfg.telemetry_file = some ("t.csv") ∧
    (("t.csv") == ("")) = false ∧
    telemetryFailCfg.telemetryFileExists = true ∧
    telemetryFailEnv.importReferenceErr = some ("bad column mapping") ∧
    telemetryFailEnv.docHasChunks = true ∧
    photoList telemetryFailCfg.images_folder telemetryFailEnv.listing ≠ [] ∧
    ((runPipeline telemetryFailCfg telemetryFailEnv).events =
      [Event.progress 5, Event.status msgLoadImages, Event.progress 15,
       Event.status msgLoadTelemetry, Event.progress 20,
       Event.status msgMatch, Event.progress 35,
       Event.status msgAlign, Event.progress 50,
       Event.status msgDense, Event.progress 70,
       Event.status msgOrtho, Event.progress 85,
       Event.status msgExport, Event.progress 100,
       Event.status msgDone,
       Event.finished true (exportPath telemetryFailCfg.output_path)] ∧
      (runPipeline telemetryFailCfg telemetryFailEnv).console =
        [msgWarnTelemetry ("bad column mapping")] ∧
      runSucceeded (runPipeline telemetryFailCfg telemetryFailEnv).events = true ∧
      (statusMessages (runPipeline telemetryFailCfg telemetryFailEnv).events).all
        (fun s => !(warningShaped s)) = true) :=
  ⟨rfl, rfl, rfl, rfl, rfl, by decide,
    C3_amended_telemetry_failure_nonfatal _ _ _ _ rfl rfl rfl rfl rfl (by decide)
      rfl rfl rfl rfl rfl rfl rfl⟩

/-- An engine call that imports telemetry reference data. -/
def isImportCall : EngineCall → Bool
  | EngineCall.importReference _ _ _ _ => true
  | _ => false

/-- A run with no usable telemetry file performs no reference import and
prints nothing to the console. -/
theorem no_telemetry_no_side_effects (cfg : RunConfig) (env : EngineEnv)
    (h : cfg.telemetry_file = none) :
    (runPipeline cfg env).console = [] ∧
    (runPipeline cfg env).calls.any isImportCall = false := by
  unfold runPipeline
  rw [h]
  repeat' split
  all_goals simp_all [isImportCall]

/-- C10: a supplied telemetry path whose file does not exist makes the
run identical to one with no telemetry path at all — in particular no
reference-import call is made and no console warning is printed. -/
theorem C10_nonexistent_telemetry_skipped (cfg : RunConfig) (env : EngineEnv) (tf : String)
    (htf : cfg.telemetry_file = some tf) (hex : cfg.telemetryFileExists = false) :
    runPipeline cfg env = runPipeline { cfg with telemetry_file := none } env ∧
    (runPipeline cfg env).console = [] ∧
    (runPipeline cfg env).calls.any isImportCall = false := by
  have heq : runPipeline cfg env = runPipeline { cfg with telemetry_file := none } env := by
    cases cfg with
    | mk imf tfield tfe outp st =>
      simp only at htf hex
      subst htf hex
      unfold runPipeline
      simp
  refine ⟨heq, ?_⟩
  rw [heq]
  exact no_telemetry_no_side_effects _ env rfl

/-- A run configuration with a supplied but nonexistent telemetry path. -/
def goneTelemetryCfg : RunConfig :=
  { images_folder := ("imgs"), telemetry_file := some ("gone.csv"),
    telemetryFileExists := false, output_path := ("out"), settings := noSettings }

/-- Witness for `C10_nonexistent_telemetry_skipped`: telemetry path
"gone.csv" supplied, file absent. -/
theorem C10_nonexistent_telemetry_skipped_witness :
    goneTelemetryCfg.telemetry_file = some ("gone.csv") ∧
    goneTelemetryCfg.telemetryFileExists = false ∧
    (runPipeline goneTelemetryCfg (allOkEnv ["a.jpg"]) =
      runPipeline { goneTelemetryCfg with telemetry_file := none } (allOkEnv ["a.jpg"]) ∧
      (runPipeline goneTelemetryCfg (allOkEnv ["a.jpg"])).console = [] ∧
      (runPipeline goneTelemetryCfg (allOkEnv ["a.jpg"])).calls.any isImportCall = false) :=
  ⟨rfl, rfl, C10_nonexistent_telemetry_skipped _ _ _ rfl rfl⟩

/-! ## Pre-run validation: `OrthophotoWidget.validate_inputs` (lines 472-512) -/

/-- Python's `str.strip()`: whitespace removed from both ends. -/
def pyStrip (s : String) : String :=
  String.mk (((s.data.dropWhile Char.isWhitespace).reverse.dropWhile Char.isWhitespace).reverse)

/-- The widget state and filesystem facts `validate_inputs` consults:
the two text fields, existence of the two directories, whether
`os.makedirs` on the output path would succeed, and the images
directory's listing. -/
structure ValidateEnv where
  imagesFolderText : String
  outputFolderText : String
  imagesFolderExists : Bool
  outputFolderExists : Bool
  makedirsOk : Bool
  listing : List String
deriving Repr, DecidableEq

/-- The per-extension file count of lines 499-500 (lowercase glob plus
uppercase glob). -/
def extCount (listing : List String) (ext : String) : Nat :=
  (listing.filter (fun f => pyEndsWith f ext)).length +
    (listing.filter (fun f => pyEndsWith f (pyUpper ext))).length

/-- The extension loop of lines 498-504, exactly as indented in the
source: the first iteration's body adds its counts (and may show the
no-images warning box), then the `return False` on line 504 — indented
inside the `for`, not inside the `if` — exits the function. The
`return True` on line 506 is reached only when the extension list is
empty. -/
def imagesPresentLoop (listing : List String) : List String → Nat → Bool
  | [], _ => true
  | ext :: _, count =>
    let _count := count + extCount listing ext
    false

/-- Embeds `OrthophotoWidget.validate_inputs` (lines 472-506). -/
def validate_inputs (env : ValidateEnv) : Bool :=
  if pyStrip env.imagesFolderText = ("") then false
  else if !env.imagesFolderExists then false
  else if pyStrip env.outputFolderText = ("") then false
  else if !env.outputFolderExists && !env.makedirsOk then false
  else imagesPresentLoop env.listing supported_formats 0

/-- Embeds `OrthophotoWidget.start_processing` (lines 508-512): launches a run
exactly when `validate_inputs` accepts. -/
def start_processing_starts (env : ValidateEnv) : Bool := validate_inputs env

/-- A fully valid input: both directories exist and the images folder
holds a supported image. -/
def goodValidateEnv : ValidateEnv :=
  { imagesFolderText := ("imgs"), outputFolderText := ("out"), imagesFolderExists := true,
    outputFolderExists := true, makedirsOk := true, listing := ["a.jpg"] }

/-- C8: pre-run validation rejects even fully valid inputs — the
misindented `return False` (line 504) makes `validate_inputs` return
False on every input, so `start_processing` never starts a run. -/
theorem C8_validate_inputs_never_accepts :
    (validate_inputs goodValidateEnv = false ∧
      start_processing_starts goodValidateEnv = false ∧
      goodValidateEnv.imagesFolderExists = true ∧
      goodValidateEnv.outputFolderExists = true ∧
      (∃ f, f ∈ goodValidateEnv.listing ∧ recognizedByCode f = true)) ∧
    ∀ env : ValidateEnv, validate_inputs env = false := by
  constructor
  · refine ⟨by rfl, by rfl, rfl, rfl, ⟨("a.jpg"), by decide⟩⟩
  · intro env
    unfold validate_inputs
    repeat' split
    all_goals rfl

end MetashapeMenu
